/-
Verification of the MangoHud OpenTelemetry exporter
(`src/otel_exporter.cpp` / `src/otel_exporter.h`).

The exporter's pure computations (label escaping, bind-address parsing,
Prometheus exposition rendering, HTTP request handling) are embedded as
Lean functions; its stateful lifecycle (`start`/`stop`) is embedded as a
transition function on an explicit exporter state, and the sampler tick's
mutex discipline as a trace of lock events.

C++ `std::string` values are modelled as Lean `String`/`List Char`;
`int`/`int64_t` as `ℤ`; `float`/`double` as `ℚ` (the exposition renderer
only ever prints them with a fixed decimal precision).
-/
import Mathlib

namespace MangoHud

/-! ## Label escaping (`OtelExporter::escape_label_value`) -/

/-- The per-character escape map of `escape_label_value`'s `switch`:
backslash, double quote, newline, carriage return and tab become
two-character escape sequences; every other character passes through. -/
def escapeChar (c : Char) : List Char :=
  if c = '\\' then ['\\', '\\']
  else if c = '"' then ['\\', '"']
  else if c = '\n' then ['\\', 'n']
  else if c = '\r' then ['\\', 'r']
  else if c = '\t' then ['\\', 't']
  else [c]

/-- The loop `for (char c : value) result += ...` of `escape_label_value`. -/
def escapeChars : List Char → List Char
  | [] => []
  | c :: cs => escapeChar c ++ escapeChars cs

/-- `OtelExporter::escape_label_value`. -/
def escape_label_value (value : String) : String :=
  String.mk (escapeChars value.toList)

/-- A character list is well escaped when every backslash starts a
two-character escape sequence (`\\`, `\"`, `\n`, `\r`, `\t`) and no raw
double quote, newline, carriage return or tab occurs outside one. -/
def wellEscaped : List Char → Bool
  | [] => true
  | [c] =>
    !(c == '\\') && !(c == '"') && !(c == '\n') && !(c == '\r') && !(c == '\t')
  | c :: d :: rest =>
    if c = '\\' then
      (d == '\\' || d == '"' || d == 'n' || d == 'r' || d == 't') && wellEscaped rest
    else
      (!(c == '"') && !(c == '\n') && !(c == '\r') && !(c == '\t')) && wellEscaped (d :: rest)

/-! ## Fixed-precision decimal formatting

`generate_metrics` prints the floating-point metrics with
`std::fixed << std::setprecision(p)`. We model the float fields as exact
rationals and fixed formatting as decimal rounding with ties to even
(the IEEE-754 default; it agrees with the C++ output on every value that
is exactly representable at the requested precision, which covers all
inputs used below). Integer metrics are printed with `toString`. -/

/-- Left-pad a digit string with zeros to width `p`. -/
def padFrac (s : String) (p : Nat) : String :=
  String.mk (List.replicate (p - s.length) '0') ++ s

/-- `std::fixed << std::setprecision(p)` applied to a rational value
`x = num/den`: `|x| * 10^p` is rounded to the nearest integer (ties to
even) by comparing twice the remainder of `|num| * 10^p / den` against
`den`, then printed as integer and zero-padded fractional part, with a
leading minus sign for negative values. -/
def formatFixed (x : ℚ) (p : Nat) : String :=
  let a := x.num.natAbs * 10 ^ p
  let b := x.den
  let q := a / b
  let n := if 2 * (a % b) < b then q
           else if b < 2 * (a % b) then q + 1
           else if q % 2 = 0 then q else q + 1
  (if x.num < 0 then "-" else "") ++ toString (n / 10 ^ p) ++
    (if p = 0 then "" else "." ++ padFrac (toString (n % 10 ^ p)) p)

/-! ## The metrics snapshot (`OtelExporter::MetricsData`) -/

/-- `OtelExporter::MetricsData` from `otel_exporter.h`, with the
field-initializer defaults. The `steady_clock` capture timestamp is
modelled as an integer tick count. -/
structure MetricsData where
  fps : ℚ := 0
  frametime : ℚ := 0
  cpu_load : ℚ := 0
  cpu_power : ℚ := 0
  cpu_mhz : ℤ := 0
  cpu_temp : ℤ := 0
  gpu_load : ℚ := 0
  gpu_temp : ℤ := 0
  gpu_core_clock : ℤ := 0
  gpu_mem_clock : ℤ := 0
  gpu_power : ℚ := 0
  gpu_vram_used : ℚ := 0
  ram_used : ℚ := 0
  swap_used : ℚ := 0
  process_rss : ℚ := 0
  process_name : String := ""
  graphics_api : String := ""
  process_pid : ℤ := 0
  timestamp : ℤ := 0
deriving DecidableEq

/-! ## Exposition rendering (`OtelExporter::generate_metrics`)

The C++ function captures one millisecond Unix-epoch timestamp (`now`)
at the top of the call; we pass it as the `now` argument. The function
streams 45 lines into an `ostringstream`, each terminated by `"\n"`;
`metricLines` lists those lines in source order and `generate_metrics`
joins them. -/

/-- The shared label string built once per render call:
`process_name="…",graphics_api="…",pid="…"`. -/
def metricLabels (md : MetricsData) : String :=
  "process_name=\"" ++ escape_label_value md.process_name ++
    "\",graphics_api=\"" ++ escape_label_value md.graphics_api ++
    "\",pid=\"" ++ toString md.process_pid ++ "\""

/-- The 45 output lines of `generate_metrics`, in the order the source
streams them. -/
def metricLines (md : MetricsData) (now : ℤ) : List String :=
  let l := metricLabels md
  ["# HELP mangohud_fps_current Current frames per second",
   "# TYPE mangohud_fps_current gauge",
   "mangohud_fps_current\x7b" ++ l ++ "\x7d " ++ formatFixed md.fps 2 ++ " " ++ toString now,
   "# HELP mangohud_frametime_ms Current frame time in milliseconds",
   "# TYPE mangohud_frametime_ms gauge",
   "mangohud_frametime_ms\x7b" ++ l ++ "\x7d " ++ formatFixed md.frametime 3 ++ " " ++ toString now,
   "# HELP mangohud_cpu_load_percent CPU load percentage",
   "# TYPE mangohud_cpu_load_percent gauge",
   "mangohud_cpu_load_percent\x7b" ++ l ++ "\x7d " ++ formatFixed md.cpu_load 1 ++ " " ++ toString now,
   "# HELP mangohud_cpu_power_watts CPU power consumption in watts",
   "# TYPE mangohud_cpu_power_watts gauge",
   "mangohud_cpu_power_watts\x7b" ++ l ++ "\x7d " ++ formatFixed md.cpu_power 1 ++ " " ++ toString now,
   "# HELP mangohud_cpu_frequency_mhz CPU frequency in MHz",
   "# TYPE mangohud_cpu_frequency_mhz gauge",
   "mangohud_cpu_frequency_mhz\x7b" ++ l ++ "\x7d " ++ toString md.cpu_mhz ++ " " ++ toString now,
   "# HELP mangohud_cpu_temperature_celsius CPU temperature in Celsius",
   "# TYPE mangohud_cpu_temperature_celsius gauge",
   "mangohud_cpu_temperature_celsius\x7b" ++ l ++ "\x7d " ++ toString md.cpu_temp ++ " " ++ toString now,
   "# HELP mangohud_gpu_load_percent GPU load percentage",
   "# TYPE mangohud_gpu_load_percent gauge",
   "mangohud_gpu_load_percent\x7b" ++ l ++ "\x7d " ++ formatFixed md.gpu_load 1 ++ " " ++ toString now,
   "# HELP mangohud_gpu_temperature_celsius GPU temperature in Celsius",
   "# TYPE mangohud_gpu_temperature_celsius gauge",
   "mangohud_gpu_temperature_celsius\x7b" ++ l ++ "\x7d " ++ toString md.gpu_temp ++ " " ++ toString now,
   "# HELP mangohud_gpu_core_clock_mhz GPU core clock in MHz",
   "# TYPE mangohud_gpu_core_clock_mhz gauge",
   "mangohud_gpu_core_clock_mhz\x7b" ++ l ++ "\x7d " ++ toString md.gpu_core_clock ++ " " ++ toString now,
   "# HELP mangohud_gpu_memory_clock_mhz GPU memory clock in MHz",
   "# TYPE mangohud_gpu_memory_clock_mhz gauge",
   "mangohud_gpu_memory_clock_mhz\x7b" ++ l ++ "\x7d " ++ toString md.gpu_mem_clock ++ " " ++ toString now,
   "# HELP mangohud_gpu_power_watts GPU power consumption in watts",
   "# TYPE mangohud_gpu_power_watts gauge",
   "mangohud_gpu_power_watts\x7b" ++ l ++ "\x7d " ++ formatFixed md.gpu_power 1 ++ " " ++ toString now,
   "# HELP mangohud_gpu_vram_used_gb GPU VRAM used in GB",
   "# TYPE mangohud_gpu_vram_used_gb gauge",
   "mangohud_gpu_vram_used_gb\x7b" ++ l ++ "\x7d " ++ formatFixed md.gpu_vram_used 3 ++ " " ++ toString now,
   "# HELP mangohud_ram_used_gb System RAM used in GB",
   "# TYPE mangohud_ram_used_gb gauge",
   "mangohud_ram_used_gb\x7b" ++ l ++ "\x7d " ++ formatFixed md.ram_used 3 ++ " " ++ toString now,
   "# HELP mangohud_swap_used_gb System swap used in GB",
   "# TYPE mangohud_swap_used_gb gauge",
   "mangohud_swap_used_gb\x7b" ++ l ++ "\x7d " ++ formatFixed md.swap_used 3 ++ " " ++ toString now,
   "# HELP mangohud_process_rss_gb Process RSS memory in GB",
   "# TYPE mangohud_process_rss_gb gauge",
   "mangohud_process_rss_gb\x7b" ++ l ++ "\x7d " ++ formatFixed md.process_rss 3 ++ " " ++ toString now]

/-- `OtelExporter::generate_metrics`: the full exposition document. -/
def generate_metrics (md : MetricsData) (now : ℤ) : String :=
  String.join ((metricLines md now).map (fun line => line ++ "\n"))

/-! Spec-side rendering shape, used to state that the document is a
sequence of three-line stanzas sharing one label set and timestamp. -/

/-- A three-line Prometheus gauge stanza as the spec describes it:
`# HELP`, `# TYPE … gauge`, and one sample line. -/
def stanza (name desc labels value : String) (now : ℤ) : List String :=
  ["# HELP " ++ name ++ " " ++ desc,
   "# TYPE " ++ name ++ " gauge",
   name ++ "\x7b" ++ labels ++ "\x7d " ++ value ++ " " ++ toString now]

/-- The fixed table of (metric name, help text, formatted value) rows, in
emission order. -/
def metricTable (md : MetricsData) : List (String × String × String) :=
  [("mangohud_fps_current", "Current frames per second", formatFixed md.fps 2),
   ("mangohud_frametime_ms", "Current frame time in milliseconds", formatFixed md.frametime 3),
   ("mangohud_cpu_load_percent", "CPU load percentage", formatFixed md.cpu_load 1),
   ("mangohud_cpu_power_watts", "CPU power consumption in watts", formatFixed md.cpu_power 1),
   ("mangohud_cpu_frequency_mhz", "CPU frequency in MHz", toString md.cpu_mhz),
   ("mangohud_cpu_temperature_celsius", "CPU temperature in Celsius", toString md.cpu_temp),
   ("mangohud_gpu_load_percent", "GPU load percentage", formatFixed md.gpu_load 1),
   ("mangohud_gpu_temperature_celsius", "GPU temperature in Celsius", toString md.gpu_temp),
   ("mangohud_gpu_core_clock_mhz", "GPU core clock in MHz", toString md.gpu_core_clock),
   ("mangohud_gpu_memory_clock_mhz", "GPU memory clock in MHz", toString md.gpu_mem_clock),
   ("mangohud_gpu_power_watts", "GPU power consumption in watts", formatFixed md.gpu_power 1),
   ("mangohud_gpu_vram_used_gb", "GPU VRAM used in GB", formatFixed md.gpu_vram_used 3),
   ("mangohud_ram_used_gb", "System RAM used in GB", formatFixed md.ram_used 3),
   ("mangohud_swap_used_gb", "System swap used in GB", formatFixed md.swap_used 3),
   ("mangohud_process_rss_gb", "Process RSS memory in GB", formatFixed md.process_rss 3)]

/-! ## HTTP request handling (`OtelExporter::handle_metrics_request`)

The handler `recv`s up to 1023 bytes; a failed or empty read
(`bytes_read <= 0`) is modelled as `none`, a successful read as `some`
of the received text. It then searches the buffer with
`strstr(buffer, "GET /metrics")` and sends either a 200 response
carrying the rendered document or a fixed 404 response; on a failed
read it returns without sending anything, modelled as result `none`. -/

/-- `strstr`-style substring search: does `pat` occur in `hay`? -/
def strstrB (hay pat : List Char) : Bool :=
  pat.isPrefixOf hay ||
    match hay with
    | [] => false
    | _ :: t => strstrB t pat

/-- The 200 response built line by line in `handle_metrics_request`:
status line, content type, content length (the body's byte length),
connection close, blank line, body. -/
def okResponse (metrics : String) : String :=
  "HTTP/1.1 200 OK\r\n" ++
    "Content-Type: text/plain; version=0.0.4; charset=utf-8\r\n" ++
    "Content-Length: " ++ toString metrics.utf8ByteSize ++ "\r\n" ++
    "Connection: close\r\n" ++
    "\r\n" ++
    metrics

/-- The fixed 404 response string of `handle_metrics_request`. -/
def notFoundResponse : String :=
  "HTTP/1.1 404 Not Found\r\nContent-Length: 0\r\nConnection: close\r\n\r\n"

/-- `OtelExporter::handle_metrics_request`: `req` is the outcome of the
`recv` call, `md`/`now` the snapshot and timestamp with which
`generate_metrics` renders the body; the result is the bytes sent back,
or `none` when the handler returns early without responding. -/
def handle_metrics_request (req : Option String) (md : MetricsData) (now : ℤ) :
    Option String :=
  match req with
  | none => none
  | some r =>
    if strstrB r.toList "GET /metrics".toList then
      some (okResponse (generate_metrics md now))
    else
      some notFoundResponse

/-! ## Bind-address resolution (`OtelExporter::parse_bind_address`) -/

/-- The whitespace class of `std::isspace` in the default locale,
skipped by `std::stoi` before the number. -/
def isSpaceCpp (c : Char) : Bool :=
  c == ' ' || c == '\t' || c == '\n' || c == Char.ofNat 11 || c == Char.ofNat 12 || c == '\r'

/-- Numeric value of a digit run. -/
def digitsVal (ds : List Char) : Nat :=
  ds.foldl (fun n c => n * 10 + (c.toNat - '0'.toNat)) 0

/-- `std::stoi`: skip whitespace, optional sign, then at least one
decimal digit (further characters are ignored). `none` models a thrown
`std::invalid_argument` (no digits) or `std::out_of_range` (value does
not fit in a 32-bit `int`). -/
def cppStoi (cs : List Char) : Option ℤ :=
  let afterWs := cs.dropWhile isSpaceCpp
  let (neg, rest) :=
    match afterWs with
    | '+' :: r => (false, r)
    | '-' :: r => (true, r)
    | r => (false, r)
  let ds := rest.takeWhile Char.isDigit
  if ds.isEmpty then none
  else
    let v : ℤ := if neg then -(digitsVal ds : ℤ) else (digitsVal ds : ℤ)
    if v < -(2 ^ 31) ∨ 2 ^ 31 - 1 < v then none else some v

/-- Split a character list at its first colon (`address.find(':')` plus
the two `substr` calls): `some (before, after)` when a colon occurs. -/
def splitFirstColon : List Char → Option (List Char × List Char)
  | [] => none
  | c :: cs =>
    if c = ':' then some ([], cs)
    else (splitFirstColon cs).map (fun p => (c :: p.1, p.2))

/-- The port logic `parse_bind_address` runs (identically) in both of
its branches: `std::stoi` the substring; on an exception or a value
outside `[1, 65535]`, fall back to the default port 16969. -/
def portOrDefault (cs : List Char) : Nat :=
  match cppStoi cs with
  | some port => if port < 1 ∨ 65535 < port then 16969 else port.toNat
  | none => 16969

/-- `OtelExporter::parse_bind_address`, returning the
`(bind_address_, bind_port_)` pair it stores: text before the first
colon is the address (default `"0.0.0.0"` when there is no colon), the
rest is parsed as the port. -/
def parse_bind_address (address : String) : String × Nat :=
  match splitFirstColon address.toList with
  | some (host, portStr) => (String.mk host, portOrDefault portStr)
  | none => ("0.0.0.0", portOrDefault address.toList)

/-! ## The sampler tick (`OtelExporter::update_metrics`) -/

/-- The fields of the external `currentLogData` global that
`update_metrics` reads (`gpu_load` is an integer in the source and is
cast to `float` on copy). -/
structure LogData where
  fps : ℚ
  frametime : ℚ
  cpu_load : ℚ
  cpu_power : ℚ
  cpu_mhz : ℤ
  cpu_temp : ℤ
  gpu_load : ℤ
  gpu_temp : ℤ
  gpu_core_clock : ℤ
  gpu_mem_clock : ℤ
  gpu_power : ℚ
  gpu_vram_used : ℚ
  ram_used : ℚ
  swap_used : ℚ
  process_rss : ℚ

/-- The snapshot assignment performed by `update_metrics` (the part
between taking the lock and setting `metrics_updated_`): every field of
`current_metrics_` is assigned from the live-metrics source, the
process identity, and the engine-index table; an absent `sw_stats` or
an engine index `≥ 18` yields the graphics API name `"unknown"`. -/
def update_metrics_pure (old : MetricsData) (log : LogData) (progName : String)
    (pid : ℤ) (swEngine : Option ℕ) (engines : ℕ → String) (now : ℤ) : MetricsData :=
  { old with
    fps := log.fps
    frametime := log.frametime
    cpu_load := log.cpu_load
    cpu_power := log.cpu_power
    cpu_mhz := log.cpu_mhz
    cpu_temp := log.cpu_temp
    gpu_load := (log.gpu_load : ℚ)
    gpu_temp := log.gpu_temp
    gpu_core_clock := log.gpu_core_clock
    gpu_mem_clock := log.gpu_mem_clock
    gpu_power := log.gpu_power
    gpu_vram_used := log.gpu_vram_used
    ram_used := log.ram_used
    swap_used := log.swap_used
    process_rss := log.process_rss
    process_name := progName
    process_pid := pid
    graphics_api :=
      match swEngine with
      | some e => if e < 18 then engines e else "unknown"
      | none => "unknown"
    timestamp := now }

/-! ## Mutex discipline of one sampler tick

`OtelExporter::run` constructs `std::unique_lock lock(metrics_mutex_)`,
waits on `metrics_cv_.wait_for(lock, …)` (which releases the mutex
while waiting and re-acquires it before returning), and — when the wait
times out without a stop request — calls `update_metrics()`, whose
`std::lock_guard` acquires the same non-recursive `std::mutex` again.
We record the lock/unlock operations the tick performs on
`metrics_mutex_` as a trace and check it against the discipline of a
non-recursive mutex used by a single thread. -/

inductive LockEvent where
  | acquire
  | release
deriving DecidableEq

/-- The operations on `metrics_mutex_` during one `run` loop iteration
whose `wait_for` times out with `should_stop_` still false:
`unique_lock` construction, the wait's internal release/re-acquire,
`update_metrics`'s `lock_guard` construction and destruction, and the
`unique_lock` destruction at the end of the iteration. -/
def samplerTickLockTrace : List LockEvent :=
  [.acquire, .release, .acquire, .acquire, .release, .release]

/-- A single thread may run a trace against a non-recursive mutex only
if it never acquires while already holding the mutex and never releases
without holding it (`held` counts its current depth). -/
def nonRecursiveOk : List LockEvent → Nat → Bool
  | [], _ => true
  | .acquire :: es, held => held == 0 && nonRecursiveOk es (held + 1)
  | .release :: es, held + 1 => nonRecursiveOk es held
  | .release :: _, 0 => false

/-! ## Lifecycle (`OtelExporter::start` / `OtelExporter::stop`)

The lifecycle-relevant state of an exporter instance: the constant
`enabled_` flag, the `should_stop_` flag, whether each of
`server_thread_` and `metrics_thread_` holds a joinable thread, and the
`server_socket_` descriptor (−1 when closed). Joining a thread is
modelled as clearing its joinable flag; the threads' own effects are
not part of this state. -/

structure ExporterState where
  enabled : Bool
  should_stop : Bool
  server_joinable : Bool
  metrics_joinable : Bool
  server_socket : ℤ
deriving DecidableEq

/-- The state established by the `OtelExporter` constructor (no threads
started, socket −1, `should_stop_` false). -/
def initState (enabled : Bool) : ExporterState :=
  { enabled := enabled
    should_stop := false
    server_joinable := false
    metrics_joinable := false
    server_socket := -1 }

/-- The externally visible actions `stop` can perform. -/
inductive StopAction where
  | closeSocket
  | joinServer
  | joinMetrics
deriving DecidableEq

/-- The guarded actions one `stop` call performs on a given state:
`close` only when `server_socket_ >= 0`, `join` only on a joinable
thread (calling them unguarded would be an error). -/
def stopActions (s : ExporterState) : List StopAction :=
  (if 0 ≤ s.server_socket then [.closeSocket] else []) ++
    (if s.server_joinable then [.joinServer] else []) ++
    (if s.metrics_joinable then [.joinMetrics] else [])

/-- `OtelExporter::stop`: set `should_stop_`, close the socket if open,
notify the condition variable (no state change), and join each thread
that is joinable. -/
def stop (s : ExporterState) : ExporterState :=
  { s with
    should_stop := true
    server_socket := if 0 ≤ s.server_socket then -1 else s.server_socket
    server_joinable := false
    metrics_joinable := false }

/-- `OtelExporter::start`: return unchanged when disabled or when
`server_thread_.joinable()`; otherwise clear `should_stop_` and spawn
the delayed-listener and sampler threads. -/
def start (s : ExporterState) : ExporterState :=
  if !s.enabled || s.server_joinable then s
  else
    { s with
      should_stop := false
      server_joinable := true
      metrics_joinable := true }

/-! ## Helper lemmas -/

theorem toList_mk (l : List Char) : (String.mk l).toList = l := rfl

theorem escapeChar_wellEscaped (c : Char) (rest : List Char) :
    wellEscaped (escapeChar c ++ rest) = wellEscaped rest := by
  by_cases h1 : c = '\\'
  · subst h1; simp [escapeChar, wellEscaped]
  by_cases h2 : c = '"'
  · subst h2; simp [escapeChar, wellEscaped]
  by_cases h3 : c = '\n'
  · subst h3; simp [escapeChar, wellEscaped]
  by_cases h4 : c = '\r'
  · subst h4; simp [escapeChar, wellEscaped]
  by_cases h5 : c = '\t'
  · subst h5; simp [escapeChar, wellEscaped]
  rw [show escapeChar c = [c] from by simp [escapeChar, h1, h2, h3, h4, h5],
    List.singleton_append]
  cases rest with
  | nil => simp [wellEscaped, h1, h2, h3, h4, h5]
  | cons d rest2 => simp [wellEscaped, h1, h2, h3, h4, h5]

theorem wellEscaped_escapeChars (cs : List Char) : wellEscaped (escapeChars cs) = true := by
  induction cs with
  | nil => rfl
  | cons c cs ih => rw [escapeChars, escapeChar_wellEscaped, ih]

theorem splitFirstColon_append (host rest : List Char) (h : ':' ∉ host) :
    splitFirstColon (host ++ ':' :: rest) = some (host, rest) := by
  induction host with
  | nil => simp [splitFirstColon]
  | cons c cs ih =>
    have hc : ¬(c = ':') := by rintro rfl; exact h (List.mem_cons_self _ _)
    have hcs : ':' ∉ cs := fun m => h (List.mem_cons_of_mem _ m)
    simp [splitFirstColon, hc, ih hcs]

theorem splitFirstColon_none (cs : List Char) (h : ':' ∉ cs) : splitFirstColon cs = none := by
  induction cs with
  | nil => rfl
  | cons c cs ih =>
    have hc : ¬(c = ':') := by rintro rfl; exact h (List.mem_cons_self _ _)
    have hcs : ':' ∉ cs := fun m => h (List.mem_cons_of_mem _ m)
    simp [splitFirstColon, hc, ih hcs]

/-- The substring `parse_bind_address` submits to `std::stoi`:
everything after the first colon, or the whole input without one. -/
def portPart (cs : List Char) : List Char :=
  match splitFirstColon cs with
  | some p => p.2
  | none => cs

theorem parse_bind_address_snd (s : String) :
    (parse_bind_address s).2 = portOrDefault (portPart s.toList) := by
  unfold parse_bind_address portPart
  cases h : splitFirstColon s.toList <;> simp [h]

theorem portOrDefault_mem (cs : List Char) :
    1 ≤ portOrDefault cs ∧ portOrDefault cs ≤ 65535 := by
  unfold portOrDefault
  cases h : cppStoi cs with
  | none => exact ⟨by norm_num, by norm_num⟩
  | some v =>
    by_cases hv : v < 1 ∨ 65535 < v
    · simp [hv]
    · push_neg at hv
      simp only [if_neg (by omega : ¬(v < 1 ∨ 65535 < v))]
      omega

/-! ## Claims -/

/-- C5: `escape_label_value` is total on strings; it maps backslash to
`\\`, double quote to `\"`, newline to `\n`, carriage return to `\r`,
tab to `\t`, leaves every other character unchanged, and for every
input the output is well escaped: no raw quote, backslash, newline,
carriage return or tab occurs outside a two-character escape form. -/
theorem escape_label_value_spec (s : String) (c : Char)
    (h1 : c ≠ '\\') (h2 : c ≠ '"') (h3 : c ≠ '\n') (h4 : c ≠ '\r') (h5 : c ≠ '\t') :
    escapeChar '\\' = ['\\', '\\'] ∧ escapeChar '"' = ['\\', '"'] ∧
    escapeChar '\n' = ['\\', 'n'] ∧ escapeChar '\r' = ['\\', 'r'] ∧
    escapeChar '\t' = ['\\', 't'] ∧ escapeChar c = [c] ∧
    escape_label_value s = String.mk (escapeChars s.toList) ∧
    wellEscaped (escape_label_value s).toList = true :=
  ⟨rfl, rfl, rfl, rfl, rfl, by simp [escapeChar, h1, h2, h3, h4, h5],
   rfl, wellEscaped_escapeChars s.toList⟩

/-- Witness for C5 at the string `a"b\` and the ordinary character `x`. -/
theorem escape_label_value_spec_witness :
    ('x' ≠ '\\' ∧ 'x' ≠ '"' ∧ 'x' ≠ '\n' ∧ 'x' ≠ '\r' ∧ 'x' ≠ '\t') ∧
    (escapeChar 'x' = ['x'] ∧
      wellEscaped (escape_label_value "a\"b\\").toList = true) := by
  refine ⟨by decide, ?_, ?_⟩
  · exact (escape_label_value_spec "a\"b\\" 'x' (by decide) (by decide) (by decide)
      (by decide) (by decide)).2.2.2.2.2.1
  · exact (escape_label_value_spec "a\"b\\" 'x' (by decide) (by decide) (by decide)
      (by decide) (by decide)).2.2.2.2.2.2.2

/-- C3: for a `host:port` input whose port substring `std::stoi`-parses
to a value in `[1, 65535]`, `parse_bind_address` yields exactly that
host and that port; for a colon-free input that parses to a value in
`[1, 65535]`, it yields address `"0.0.0.0"` and that port. -/
theorem parse_bind_address_valid (host portStr bare : List Char) (v w : ℤ)
    (hnc : ':' ∉ host) (hp : cppStoi portStr = some v) (hv1 : 1 ≤ v) (hv2 : v ≤ 65535)
    (hbc : ':' ∉ bare) (hb : cppStoi bare = some w) (hw1 : 1 ≤ w) (hw2 : w ≤ 65535) :
    parse_bind_address (String.mk (host ++ ':' :: portStr)) = (String.mk host, v.toNat) ∧
    parse_bind_address (String.mk bare) = ("0.0.0.0", w.toNat) := by
  constructor
  · simp only [parse_bind_address, toList_mk, splitFirstColon_append host portStr hnc,
      portOrDefault, hp]
    rw [if_neg (by omega : ¬(v < 1 ∨ 65535 < v))]
  · simp only [parse_bind_address, toList_mk, splitFirstColon_none bare hbc,
      portOrDefault, hb]
    rw [if_neg (by omega : ¬(w < 1 ∨ 65535 < w))]

/-- Witness for C3 at `"127.0.0.1:8080"` and `"16969"`. -/
theorem parse_bind_address_valid_witness :
    (':' ∉ String.toList "127.0.0.1" ∧ cppStoi (String.toList "8080") = some 8080 ∧
      ':' ∉ String.toList "16969" ∧ cppStoi (String.toList "16969") = some 16969) ∧
    (parse_bind_address (String.mk (String.toList "127.0.0.1" ++ ':' :: String.toList "8080")) =
        (String.mk (String.toList "127.0.0.1"), 8080) ∧
      parse_bind_address (String.mk (String.toList "16969")) = ("0.0.0.0", 16969)) :=
  ⟨by decide,
   parse_bind_address_valid (String.toList "127.0.0.1") (String.toList "8080")
     (String.toList "16969") 8080 16969 (by decide) (by decide) (by decide) (by decide)
     (by decide) (by decide) (by decide) (by decide)⟩

/-- C4: whenever the port part of the input fails to `std::stoi`-parse
or parses outside `[1, 65535]`, `parse_bind_address` yields port 16969
(the exception is caught, never propagated); moreover the resolved port
always lies in `[1, 65535]`. -/
theorem parse_bind_address_default (cs : List Char)
    (hbad : cppStoi (portPart cs) = none ∨
      ∃ v, cppStoi (portPart cs) = some v ∧ (v < 1 ∨ 65535 < v)) :
    (parse_bind_address (String.mk cs)).2 = 16969 ∧
    ∀ s : String, 1 ≤ (parse_bind_address s).2 ∧ (parse_bind_address s).2 ≤ 65535 := by
  constructor
  · rw [parse_bind_address_snd, toList_mk]
    rcases hbad with h | ⟨v, h, hv⟩
    · simp only [portOrDefault, h]
    · simp only [portOrDefault, h]
      rw [if_pos hv]
  · intro s
    rw [parse_bind_address_snd]
    exact portOrDefault_mem _

/-- Witness for C4 at `"foo:99999"` (out-of-range port). -/
theorem parse_bind_address_default_witness :
    (∃ v, cppStoi (portPart (String.toList "foo:99999")) = some v ∧ (v < 1 ∨ 65535 < v)) ∧
    ((parse_bind_address (String.mk (String.toList "foo:99999"))).2 = 16969 ∧
      ∀ s : String, 1 ≤ (parse_bind_address s).2 ∧ (parse_bind_address s).2 ≤ 65535) :=
  ⟨⟨99999, by decide, by decide⟩,
   parse_bind_address_default (String.toList "foo:99999")
     (Or.inr ⟨99999, by decide, by decide⟩)⟩

/-- C1 counterexample: the handler does not respond 404 to every
request other than a GET of the exact path `/metrics`. On a read
failure it sends nothing at all (not a 404), and a GET of the distinct
path `/metricsfoo` is answered 200 with the metrics body, because the
source matches with `strstr(buffer, "GET /metrics")`. -/
theorem handle_request_claim_counterexample :
    handle_metrics_request none {} 0 = none ∧
    handle_metrics_request none {} 0 ≠ some notFoundResponse ∧
    handle_metrics_request (some "GET /metricsfoo HTTP/1.1\r\n\r\n") {} 0 =
      some (okResponse (generate_metrics {} 0)) ∧
    okResponse (generate_metrics {} 0) ≠ notFoundResponse := by
  refine ⟨rfl, by simp [handle_metrics_request], rfl, ?_⟩
  decide

/-- C1 amended: for every successfully read request containing the
substring `"GET /metrics"` (not only exact-path GETs), the handler
responds 200 with content type `text/plain; version=0.0.4;
charset=utf-8`, `Connection: close`, the rendered metrics body and a
`Content-Length` equal to the body's byte length; every other
successfully read request receives the fixed 404 response with empty
body and `Content-Length: 0`; on a read failure no response is sent. -/
theorem handle_request_amended (r : String) (md : MetricsData) (now : ℤ) :
    handle_metrics_request (some r) md now =
      some (if strstrB r.toList (String.toList "GET /metrics")
            then okResponse (generate_metrics md now)
            else notFoundResponse) ∧
    handle_metrics_request none md now = none ∧
    okResponse (generate_metrics md now) =
      "HTTP/1.1 200 OK\r\n" ++
        "Content-Type: text/plain; version=0.0.4; charset=utf-8\r\n" ++
        "Content-Length: " ++ toString (generate_metrics md now).utf8ByteSize ++ "\r\n" ++
        "Connection: close\r\n" ++ "\r\n" ++ generate_metrics md now ∧
    notFoundResponse =
      "HTTP/1.1 404 Not Found\r\nContent-Length: 0\r\nConnection: close\r\n\r\n" := by
  refine ⟨?_, rfl, rfl, rfl⟩
  simp only [handle_metrics_request]
  rw [apply_ite some]

/-- C2: the rendered document is exactly 15 three-line stanzas
(`# HELP`, `# TYPE … gauge`, one sample line) emitted in the fixed
order fps, frametime, cpu load, cpu power, cpu frequency, cpu
temperature, gpu load, gpu temperature, gpu core clock, gpu memory
clock, gpu power, gpu vram, ram, swap, process rss, where every sample
line carries the one shared label set and the one timestamp captured
for the render call. -/
theorem generate_metrics_fifteen_stanzas (md : MetricsData) (now : ℤ) :
    metricLines md now =
      (metricTable md).flatMap (fun e => stanza e.1 e.2.1 (metricLabels md) e.2.2 now) ∧
    (metricTable md).map Prod.fst =
      ["mangohud_fps_current", "mangohud_frametime_ms", "mangohud_cpu_load_percent",
       "mangohud_cpu_power_watts", "mangohud_cpu_frequency_mhz",
       "mangohud_cpu_temperature_celsius", "mangohud_gpu_load_percent",
       "mangohud_gpu_temperature_celsius", "mangohud_gpu_core_clock_mhz",
       "mangohud_gpu_memory_clock_mhz", "mangohud_gpu_power_watts",
       "mangohud_gpu_vram_used_gb", "mangohud_ram_used_gb", "mangohud_swap_used_gb",
       "mangohud_process_rss_gb"] ∧
    (metricTable md).length = 15 ∧
    generate_metrics md now = String.join ((metricLines md now).map (fun line => line ++ "\n")) :=
  ⟨rfl, rfl, rfl, rfl⟩

/-- The snapshot of testable property §8: fps 60.0, frametime 16.667,
cpu load 23.4, process `game` on Vulkan with pid 1234 (remaining
metrics at their zero defaults). -/
def sampleSnapshot : MetricsData :=
  { fps := 60
    frametime := Rat.mk' 16667 1000
    cpu_load := Rat.mk' 117 5
    process_name := "game"
    graphics_api := "vulkan"
    process_pid := 1234 }

/-- C6: on the concrete snapshot, the document carries the sample line
`mangohud_fps_current{process_name="game",graphics_api="vulkan",pid="1234"} 60.00 <ts>`
immediately preceded by its `# HELP`/`# TYPE` lines, and the values are
formatted with 2 decimals for fps, 3 for frametime and the GB metrics,
1 for load/power, and as plain integers for clocks, temperatures and
frequency (shown by the sample lines at indices 5, 8, 11, 14, 23
and 35 of the 45-line document). -/
theorem generate_metrics_concrete_sample (now : ℤ) :
    (metricLines sampleSnapshot now).take 3 =
      ["# HELP mangohud_fps_current Current frames per second",
       "# TYPE mangohud_fps_current gauge",
       "mangohud_fps_current\x7bprocess_name=\"game\",graphics_api=\"vulkan\",pid=\"1234\"\x7d 60.00 "
         ++ toString now] ∧
    (metricLines sampleSnapshot now)[5]? =
      some ("mangohud_frametime_ms\x7bprocess_name=\"game\",graphics_api=\"vulkan\",pid=\"1234\"\x7d 16.667 "
        ++ toString now) ∧
    (metricLines sampleSnapshot now)[8]? =
      some ("mangohud_cpu_load_percent\x7bprocess_name=\"game\",graphics_api=\"vulkan\",pid=\"1234\"\x7d 23.4 "
        ++ toString now) ∧
    (metricLines sampleSnapshot now)[11]? =
      some ("mangohud_cpu_power_watts\x7bprocess_name=\"game\",graphics_api=\"vulkan\",pid=\"1234\"\x7d 0.0 "
        ++ toString now) ∧
    (metricLines sampleSnapshot now)[14]? =
      some ("mangohud_cpu_frequency_mhz\x7bprocess_name=\"game\",graphics_api=\"vulkan\",pid=\"1234\"\x7d 0 "
        ++ toString now) ∧
    (metricLines sampleSnapshot now)[23]? =
      some ("mangohud_gpu_temperature_celsius\x7bprocess_name=\"game\",graphics_api=\"vulkan\",pid=\"1234\"\x7d 0 "
        ++ toString now) ∧
    (metricLines sampleSnapshot now)[35]? =
      some ("mangohud_gpu_vram_used_gb\x7bprocess_name=\"game\",graphics_api=\"vulkan\",pid=\"1234\"\x7d 0.000 "
        ++ toString now) ∧
    generate_metrics sampleSnapshot now =
      String.join ((metricLines sampleSnapshot now).map (fun line => line ++ "\n")) :=
  ⟨rfl, rfl, rfl, rfl, rfl, rfl, rfl, rfl⟩

/-- C7 (code bug): the tick does overwrite every snapshot field
wholesale (the result of the field assignment never depends on the
previous snapshot), but the mutex discipline is violated: over one
timed-out tick the non-recursive `metrics_mutex_` is acquired three
times, and the trace breaks the single-threaded non-recursive-mutex
discipline — `run` still holds the lock re-acquired by `wait_for` when
`update_metrics`'s `lock_guard` locks the same mutex again. -/
theorem sampler_tick_lock_violation :
    (∀ (old old' : MetricsData) (log : LogData) (progName : String) (pid : ℤ)
        (swEngine : Option ℕ) (engines : ℕ → String) (now : ℤ),
      update_metrics_pure old log progName pid swEngine engines now =
        update_metrics_pure old' log progName pid swEngine engines now) ∧
    samplerTickLockTrace.count LockEvent.acquire = 3 ∧
    nonRecursiveOk samplerTickLockTrace 0 = false :=
  ⟨fun _ _ _ _ _ _ _ _ => rfl, by decide, by decide⟩

/-- C8 counterexample: calling `stop` on a freshly constructed exporter
(`start` never called) does not leave the state unchanged — it sets the
`should_stop_` flag. -/
theorem stop_fresh_state_changed : stop (initState true) ≠ initState true := by
  decide

/-- C8 amended: `stop` is idempotent — a second call returns the same
state and performs no close or join action — and after any `stop` the
socket is closed (−1, for the reachable socket values) and both threads
are joined; calling `stop` when `start` was never called is safe and
changes nothing but the `should_stop_` flag. -/
theorem stop_idempotent_amended (s : ExporterState)
    (hs : s.server_socket = -1 ∨ 0 ≤ s.server_socket) :
    stop (stop s) = stop s ∧
    stopActions (stop s) = [] ∧
    (stop s).server_socket = -1 ∧
    (stop s).server_joinable = false ∧
    (stop s).metrics_joinable = false ∧
    stop (initState s.enabled) = { initState s.enabled with should_stop := true } := by
  rcases hs with h | h <;>
    simp [stop, stopActions, initState, h]

/-- A running exporter state: enabled, both threads live, socket 5. -/
def runningState : ExporterState :=
  { enabled := true
    should_stop := false
    server_joinable := true
    metrics_joinable := true
    server_socket := 5 }

/-- Witness for C8 at a running exporter with socket descriptor 5. -/
theorem stop_idempotent_amended_witness :
    ((0 : ℤ) ≤ runningState.server_socket) ∧
    (stop (stop runningState) = stop runningState ∧
      stopActions (stop runningState) = [] ∧
      (stop runningState).server_socket = -1 ∧
      (stop runningState).server_joinable = false ∧
      (stop runningState).metrics_joinable = false ∧
      stop (initState runningState.enabled) =
        { initState runningState.enabled with should_stop := true }) :=
  ⟨by decide, stop_idempotent_amended runningState (Or.inr (by decide))⟩

/-- C9: every tick re-derives the graphics API name from the engine
index and table; an absent `sw_stats` or an index outside the known
range (`< 18`) makes the tick store `"unknown"` instead of failing,
while an in-range index stores the table's name for it. -/
theorem graphics_api_unknown_default (old : MetricsData) (log : LogData)
    (progName : String) (pid : ℤ) (engines : ℕ → String) (now : ℤ)
    (swAbsent swPresent : Option ℕ) (i : ℕ)
    (habs : swAbsent = none ∨ ∃ j, swAbsent = some j ∧ 18 ≤ j)
    (hin : swPresent = some i) (hi : i < 18) :
    (update_metrics_pure old log progName pid swAbsent engines now).graphics_api =
      "unknown" ∧
    (update_metrics_pure old log progName pid swPresent engines now).graphics_api =
      engines i := by
  constructor
  · rcases habs with h | ⟨j, h, hj⟩ <;> subst h
    · rfl
    · simp [update_metrics_pure, Nat.not_lt.mpr hj]
  · subst hin
    simp [update_metrics_pure, hi]

/-- An all-zero live-metrics record. -/
def zeroLog : LogData :=
  ⟨0, 0, 0, 0, 0, 0, 0, 0, 0, 0, 0, 0, 0, 0, 0⟩

/-- Witness for C9: engine index 18 (just out of range) yields
`"unknown"`; index 3 yields the table entry for 3. -/
theorem graphics_api_unknown_default_witness :
    ((some 18 : Option ℕ) = some 18 ∧ (some 3 : Option ℕ) = some 3 ∧ 3 < 18) ∧
    ((update_metrics_pure {} zeroLog "game" 1234 (some 18) (fun j => toString j) 0).graphics_api =
        "unknown" ∧
      (update_metrics_pure {} zeroLog "game" 1234 (some 3) (fun j => toString j) 0).graphics_api =
        toString 3) :=
  ⟨⟨rfl, rfl, by decide⟩,
   graphics_api_unknown_default {} zeroLog "game" 1234 (fun j => toString j) 0
     (some 18) (some 3) 3 (Or.inr ⟨18, rfl, by decide⟩) rfl (by decide)⟩

/-- C10: after `stop` on an enabled exporter, `start` is not a no-op:
the joinable-handle guard passes, `should_stop_` is reset to false and
both background threads are spawned again; the stop/start cycle can
then repeat. -/
theorem start_after_stop_restarts (s : ExporterState) (he : s.enabled = true) :
    start (stop s) =
      { stop s with
        should_stop := false
        server_joinable := true
        metrics_joinable := true } ∧
    start (stop s) ≠ stop s ∧
    (start (stop s)).should_stop = false ∧
    (start (stop s)).server_joinable = true ∧
    (start (stop s)).metrics_joinable = true ∧
    start (stop (start (stop s))) =
      { stop (start (stop s)) with
        should_stop := false
        server_joinable := true
        metrics_joinable := true } := by
  have h1 : start (stop s) =
      { stop s with
        should_stop := false
        server_joinable := true
        metrics_joinable := true } := by
    simp [start, stop, he]
  refine ⟨h1, ?_, ?_, ?_, ?_, ?_⟩
  · rw [h1]
    intro hcontra
    have := congrArg ExporterState.server_joinable hcontra
    simp [stop] at this
  · rw [h1]
  · rw [h1]
  · rw [h1]
  · simp [start, stop, he]

/-- Witness for C10 at the running exporter state. -/
theorem start_after_stop_restarts_witness :
    runningState.enabled = true ∧
    (start (stop runningState) =
        { stop runningState with
          should_stop := false
          server_joinable := true
          metrics_joinable := true } ∧
      start (stop runningState) ≠ stop runningState ∧
      (start (stop runningState)).should_stop = false ∧
      (start (stop runningState)).server_joinable = true ∧
      (start (stop runningState)).metrics_joinable = true ∧
      start (stop (start (stop runningState))) =
        { stop (start (stop runningState)) with
          should_stop := false
          server_joinable := true
          metrics_joinable := true }) :=
  ⟨rfl, start_after_stop_restarts runningState rfl⟩

end MangoHud
